import Mathlib

/-!
# Verification of the Location Intelligence Dashboard backend

Shallow embedding of `src/backend/server.py` (FastAPI backend of the
flippi_wibecode repository): the CSV-to-property normalizer
(`parse_csv_to_properties`), the upload / reset-and-reimport / create /
delete write paths over the property store, the region statistics
aggregation (`get_region_stats`), the per-coordinate ROI analysis
(`get_roi_analysis`), and the OSM building ingester
(`fetch_buildings_from_osm`).

Modelling conventions:
* Python floats are modelled by `PyFloat`: either a rational value or NaN
  (NaN arises in the code as `float(nan)` on a missing pandas cell and then
  propagates through arithmetic; comparisons with NaN are false, NaN is
  truthy).  Overflow/infinities are never produced by the modelled inputs.
* A pandas cell is a `Cell`: a numeric value, a string (tagged with the
  results of Python's `float()`/`int()` coercions, which this embedding
  does not re-implement), a boolean, or NA (NaN/None — `pd.isna` is true
  exactly there).
* A CSV row already parsed into a table is an association list from column
  name to `Cell`; `row.get(col, default)` is `rowGet`.
* `uuid.uuid4()` is modelled by a deterministic fresh-name supply
  (`freshId` applied to a running counter); timestamps are omitted as no
  modelled behaviour reads them.
* The MongoDB property collection is a `List Doc` in insertion order;
  `insert_many` appends, `delete_many({})` empties, `delete_one` removes
  the first id match.
-/

namespace Flippi

/-! ## Kernel-computable rational arithmetic

Mathlib's `+`, `*`, `/` on `ℚ` do not reduce inside `decide`, so the
embedding carries its own normalising constructor `mkQ` and operations
`qAdd`, `qMul`, `qDiv`, each proved equal to the corresponding Mathlib
operation (`qAdd_eq`, `qMul_eq`, `qDiv_eq`); concrete evaluations can then
go through `decide` while abstract reasoning uses Mathlib. -/

/-- The rational `n / d` built directly in lowest terms (kernel-reducible). -/
def mkQ (n : ℤ) (d : ℕ) : ℚ :=
  if d = 0 then 0
  else
    let g := Nat.gcd n.natAbs d
    let n' := n / (g : ℤ)
    let d' := d / g
    if h : d' ≠ 0 ∧ n'.natAbs.Coprime d' then ⟨n', d', h.1, h.2⟩ else 0

/-- `mkQ` agrees with rational division of the casts. -/
theorem mkQ_eq (n : ℤ) (d : ℕ) : mkQ n d = (n : ℚ) / (d : ℚ) := by
  unfold mkQ
  by_cases hd : d = 0
  · simp [hd]
  · rw [if_neg hd]
    have hdpos : 0 < d := Nat.pos_of_ne_zero hd
    have hgpos : 0 < Nat.gcd n.natAbs d := Nat.gcd_pos_of_pos_right _ hdpos
    have hgd : Nat.gcd n.natAbs d ∣ d := Nat.gcd_dvd_right _ _
    have hgn : ((Nat.gcd n.natAbs d : ℤ)) ∣ n :=
      Int.dvd_natAbs.mp (Int.natCast_dvd_natCast.mpr (Nat.gcd_dvd_left _ _))
    have hd' : d / Nat.gcd n.natAbs d ≠ 0 :=
      (Nat.div_pos (Nat.le_of_dvd hdpos hgd) hgpos).ne'
    have hcop : ((n / (Nat.gcd n.natAbs d : ℤ)).natAbs).Coprime (d / Nat.gcd n.natAbs d) := by
      rw [Int.natAbs_ediv _ _ hgn]
      simpa using Nat.coprime_div_gcd_div_gcd (m := n.natAbs) (n := d) hgpos
    rw [dif_pos ⟨hd', hcop⟩, Rat.mk'_eq_divInt]
    have hgz : (Nat.gcd n.natAbs d : ℤ) ≠ 0 := Int.natCast_ne_zero.mpr hgpos.ne'
    have h1 : (n / (Nat.gcd n.natAbs d : ℤ)) * (Nat.gcd n.natAbs d : ℤ) = n :=
      Int.ediv_mul_cancel hgn
    have h2 : ((d / Nat.gcd n.natAbs d : ℕ) : ℤ) * (Nat.gcd n.natAbs d : ℤ) = (d : ℤ) := by
      exact_mod_cast Nat.div_mul_cancel hgd
    calc Rat.divInt (n / (Nat.gcd n.natAbs d : ℤ)) ((d / Nat.gcd n.natAbs d : ℕ) : ℤ)
        = Rat.divInt ((n / (Nat.gcd n.natAbs d : ℤ)) * (Nat.gcd n.natAbs d : ℤ))
            (((d / Nat.gcd n.natAbs d : ℕ) : ℤ) * (Nat.gcd n.natAbs d : ℤ)) :=
          (Rat.divInt_mul_right hgz).symm
      _ = Rat.divInt n (d : ℤ) := by rw [h1, h2]
      _ = (n : ℚ) / (d : ℚ) := by rw [Rat.divInt_eq_div]; norm_num

/-- Kernel-reducible rational addition. -/
def qAdd (a b : ℚ) : ℚ := mkQ (a.num * b.den + b.num * a.den) (a.den * b.den)

/-- Kernel-reducible rational multiplication. -/
def qMul (a b : ℚ) : ℚ := mkQ (a.num * b.num) (a.den * b.den)

/-- Kernel-reducible rational division (`a / 0 = 0`, matching Mathlib). -/
def qDiv (a b : ℚ) : ℚ :=
  if 0 ≤ b.num then mkQ (a.num * b.den) (a.den * b.num.natAbs)
  else mkQ (-(a.num * b.den)) (a.den * b.num.natAbs)

theorem qAdd_eq (a b : ℚ) : qAdd a b = a + b := by
  have ha : (a.den : ℚ) ≠ 0 := Nat.cast_ne_zero.mpr a.den_nz
  have hb : (b.den : ℚ) ≠ 0 := Nat.cast_ne_zero.mpr b.den_nz
  rw [qAdd, mkQ_eq]
  conv_rhs => rw [← Rat.num_div_den a, ← Rat.num_div_den b]
  rw [div_add_div _ _ ha hb]
  push_cast
  ring_nf

theorem qMul_eq (a b : ℚ) : qMul a b = a * b := by
  have ha : (a.den : ℚ) ≠ 0 := Nat.cast_ne_zero.mpr a.den_nz
  have hb : (b.den : ℚ) ≠ 0 := Nat.cast_ne_zero.mpr b.den_nz
  rw [qMul, mkQ_eq]
  conv_rhs => rw [← Rat.num_div_den a, ← Rat.num_div_den b]
  rw [div_mul_div_comm]
  push_cast
  ring_nf

theorem qDiv_aux (a b : ℚ) (hb0 : b ≠ 0) :
    ((a.num : ℚ) * (b.den : ℚ)) / ((a.den : ℚ) * (b.num : ℚ)) = a / b := by
  have ha : (a.den : ℚ) ≠ 0 := Nat.cast_ne_zero.mpr a.den_nz
  have hb : (b.den : ℚ) ≠ 0 := Nat.cast_ne_zero.mpr b.den_nz
  have hbn : (b.num : ℚ) ≠ 0 := by
    exact_mod_cast Rat.num_ne_zero.mpr hb0
  have haa : (a : ℚ) * (a.den : ℚ) = (a.num : ℚ) := by
    nth_rewrite 1 [← Rat.num_div_den a]
    exact div_mul_cancel₀ _ ha
  have hbb : (b : ℚ) * (b.den : ℚ) = (b.num : ℚ) := by
    nth_rewrite 1 [← Rat.num_div_den b]
    exact div_mul_cancel₀ _ hb
  rw [div_eq_div_iff (mul_ne_zero ha hbn) hb0, ← haa, ← hbb]
  ring

theorem qDiv_eq (a b : ℚ) : qDiv a b = a / b := by
  by_cases hb0 : b = 0
  · subst hb0
    simp [qDiv, mkQ_eq]
  · rcases le_or_lt 0 b.num with hpos | hneg
    · have h4 : ((b.num.natAbs : ℕ) : ℤ) = b.num := Int.natAbs_of_nonneg hpos
      have h3 : ((a.den * b.num.natAbs : ℕ) : ℚ) = (a.den : ℚ) * (b.num : ℚ) := by
        rw [Nat.cast_mul]
        congr 1
        rw [← Int.cast_natCast (R := ℚ), h4]
      rw [qDiv, if_pos hpos, mkQ_eq, h3]
      push_cast
      exact qDiv_aux a b hb0
    · have h4 : ((b.num.natAbs : ℕ) : ℤ) = -b.num := by omega
      have h3 : ((a.den * b.num.natAbs : ℕ) : ℚ) = (a.den : ℚ) * (-(b.num : ℚ)) := by
        rw [Nat.cast_mul]
        congr 1
        rw [← Int.cast_natCast (R := ℚ), h4]
        push_cast
        ring
      rw [qDiv, if_neg (not_le.mpr hneg), mkQ_eq, h3]
      push_cast
      rw [show ((a.den : ℚ) * -(b.num : ℚ)) = -((a.den : ℚ) * (b.num : ℚ)) by ring,
        div_neg, neg_div, neg_neg]
      exact qDiv_aux a b hb0

/-- A Python float: a rational value or NaN.  `float('nan')` propagates
through `+`, `*`, `/` and makes every comparison false, but is truthy. -/
inductive PyFloat where
  | nan : PyFloat
  | val (q : ℚ) : PyFloat
deriving DecidableEq, Repr, Inhabited

/-- Python `+` on floats (NaN absorbs). -/
def PyFloat.add : PyFloat → PyFloat → PyFloat
  | .val a, .val b => .val (qAdd a b)
  | _, _ => .nan

/-- Python `*` on floats (NaN absorbs). -/
def PyFloat.mul : PyFloat → PyFloat → PyFloat
  | .val a, .val b => .val (qMul a b)
  | _, _ => .nan

/-- Python `/` on floats.  On rationals `a / 0 = 0` in Lean; Python would
raise `ZeroDivisionError` there, but every division site in the embedded
code guards the divisor with a strict positivity test (or divides by a
nonzero list length), so that case is unreachable. -/
def PyFloat.div : PyFloat → PyFloat → PyFloat
  | .val a, .val b => .val (qDiv a b)
  | _, _ => .nan

/-- Python `>` on floats: any comparison involving NaN is false. -/
def PyFloat.gt : PyFloat → PyFloat → Bool
  | .val a, .val b => decide (b < a)
  | _, _ => false

/-- Python truthiness of a float: `0.0` is falsy, every other float —
including NaN — is truthy. -/
def PyFloat.truthy : PyFloat → Bool
  | .val q => decide (q ≠ 0)
  | .nan => true

/-- Extract the rational value of a float.  Applied only to results of
`float()` on cells that passed a `pd.isna` guard, which are never NaN. -/
def PyFloat.toRat : PyFloat → ℚ
  | .val q => q
  | .nan => 0

/-- A pandas cell value.  String cells are tagged with the results of
Python's `float(s)` / `int(s)` coercions on them (`strNum` for strings
those coercions can read as numbers, `str` for strings `float()` rejects);
the embedding carries these outcomes as data instead of re-implementing
Python's numeric literal syntax. -/
inductive Cell where
  | num (q : ℚ)
  | strNum (s : String) (asFloat : ℚ) (asInt : Option ℤ)
  | str (s : String)
  | boolean (b : Bool)
  | na
deriving DecidableEq, Repr, Inhabited

/-- `pd.isna`: true exactly on NaN/None cells. -/
def isna : Cell → Bool
  | .na => true
  | _ => false

/-- Python `float(cell)`: numbers and numeric strings convert, booleans
become 0.0/1.0, NaN stays NaN, other strings raise `ValueError`. -/
def pyFloat : Cell → Except String PyFloat
  | .num q => .ok (.val q)
  | .strNum _ f _ => .ok (.val f)
  | .str s => .error ("could not convert string to float: " ++ s)
  | .boolean b => .ok (.val (if b then 1 else 0))
  | .na => .ok .nan

/-- Truncation toward zero, the behaviour of Python `int()` on a float. -/
def ratTrunc (q : ℚ) : ℤ :=
  q.num.tdiv q.den

/-- Python `int(cell)`: floats truncate toward zero, integer-literal
strings convert, booleans become 0/1, NaN and other strings raise. -/
def pyInt : Cell → Except String ℤ
  | .num q => .ok (ratTrunc q)
  | .strNum _ _ (some i) => .ok i
  | .strNum s _ none => .error ("invalid literal for int with base 10: " ++ s)
  | .str s => .error ("invalid literal for int with base 10: " ++ s)
  | .boolean b => .ok (if b then 1 else 0)
  | .na => .error "cannot convert float NaN to integer"

/-- A CSV row of the parsed table: column name ↦ cell. -/
def Row : Type := List (String × Cell)

/-- `row.get(col, default)`: the cell under `col`, or the default. -/
def rowGet (row : Row) (col : String) (dflt : Cell) : Cell :=
  match List.lookup col row with
  | some c => c
  | none => dflt

/-- Deterministic model of `uuid.uuid4()`: the `n`-th fresh id. -/
def freshId (n : ℕ) : String := "uuid-" ++ toString n

instance {ε α : Type} [DecidableEq ε] [DecidableEq α] : DecidableEq (Except ε α) :=
  fun a b =>
    match a, b with
    | .error e, .error f =>
      if h : e = f then isTrue (congrArg Except.error h)
      else isFalse (fun hc => h (Except.error.inj hc))
    | .error _, .ok _ => isFalse (fun hc => Except.noConfusion hc)
    | .ok _, .error _ => isFalse (fun hc => Except.noConfusion hc)
    | .ok x, .ok y =>
      if h : x = y then isTrue (congrArg Except.ok h)
      else isFalse (fun hc => h (Except.ok.inj hc))

/-! ## Data model: stored property documents

Both write paths (`parse_csv_to_properties` and `create_property`) insert
dictionaries into the same MongoDB collection.  `Doc` is the common shape:
dictionary keys that only the CSV path writes (`year_built`, `house_type`,
`building_type`, `has_sauna`) live in the optional `extras` bag, and
location-dictionary keys are `Option`-valued because `create_property`
accepts an arbitrary `location` dict (modelled here as this record shape
with any subset of the keys present; `coordinates`, when present, is a
list of numbers). -/

/-- The `location` sub-dictionary of a stored document. -/
structure Loc where
  ltype : Option String
  coordinates : Option (List ℚ)
  address : Option Cell
  city : Option String
  region : Option String
  postal_code : Option String
deriving DecidableEq, Repr

/-- The `property_type` value: the CSV path synthesises the Python
f-string `"{rooms} Room {building_type}"` (kept symbolically as its two
components rather than re-implementing Python string formatting of
floats/None); direct creation supplies a plain string. -/
inductive PropType where
  | synthesized (rooms : Option ℤ) (building_type : Cell)
  | literal (s : String)
deriving DecidableEq, Repr

/-- Dictionary keys written only by the CSV ingestion path. -/
structure CsvExtras where
  year_built : Option Cell
  house_type : Cell
  building_type : Cell
  has_sauna : Cell
deriving DecidableEq, Repr

instance : Inhabited Loc := ⟨⟨none, none, none, none, none, none⟩⟩

instance : Inhabited PropType := ⟨.literal ""⟩

/-- A stored property document (timestamps omitted: nothing modelled
reads them). -/
structure Doc where
  id : String
  title : Cell
  price : PyFloat
  price_currency : String
  property_type : PropType
  area : Option PyFloat
  rooms : Option ℤ
  bathrooms : Option ℤ
  location : Loc
  source : String
  url : Option String
  is_for_sale : Bool
  extras : Option CsvExtras
deriving DecidableEq, Repr

instance : Inhabited Doc :=
  ⟨⟨"", .na, .nan, "", .literal "", none, none, none, default, "", none, true, none⟩⟩

/-! ## SchemaNormalizer: `parse_csv_to_properties` -/

/-- `square_meters = float(row.get('square', 0)) if not pd.isna(row.get('square', None)) else None`. -/
def squareField (row : Row) : Except String (Option PyFloat) :=
  if isna (rowGet row "square" .na) then .ok none
  else
    match pyFloat (rowGet row "square" (.num 0)) with
    | .ok v => .ok (some v)
    | .error e => .error e

/-- `rooms = int(row.get('rooms', 0)) if not pd.isna(row.get('rooms', None)) else None`. -/
def roomsField (row : Row) : Except String (Option ℤ) :=
  if isna (rowGet row "rooms" .na) then .ok none
  else
    match pyInt (rowGet row "rooms" (.num 0)) with
    | .ok v => .ok (some v)
    | .error e => .error e

/-- `has_sauna = row.get('sauna', False) if not pd.isna(row.get('sauna', None)) else False`. -/
def saunaField (row : Row) : Cell :=
  if isna (rowGet row "sauna" .na) then .boolean false
  else rowGet row "sauna" (.boolean false)

/-- The loop body of `parse_csv_to_properties` for one row: `.ok none`
when the row is skipped for missing coordinates, `.ok (some doc)` when the
row is accepted (`pid` is the fresh uuid), `.error` when a numeric
coercion raises (which aborts the whole batch). -/
def parseRow (row : Row) (is_rental : Bool) (pid : String) : Except String (Option Doc) :=
  let lat := rowGet row "latitude" .na
  let lng := rowGet row "longitude" .na
  if isna lat || isna lng then .ok none
  else
    match pyFloat (rowGet row "price" (.num 0)) with
    | .error e => .error e
    | .ok price =>
      match squareField row with
      | .error e => .error e
      | .ok square_meters =>
        match roomsField row with
        | .error e => .error e
        | .ok rooms =>
          match pyFloat lng with
          | .error e => .error e
          | .ok lngF =>
            match pyFloat lat with
            | .error e => .error e
            | .ok latF =>
              let address := rowGet row "address" (.str "")
              .ok (some {
                id := pid
                title := address
                price := price
                price_currency := "EUR"
                property_type := .synthesized rooms (rowGet row "building_type" (.str ""))
                area := square_meters
                rooms := rooms
                bathrooms := some 1
                location := {
                  ltype := some "Point"
                  coordinates := some [lngF.toRat, latF.toRat]
                  address := some address
                  city := some "Espoo"
                  region := some "Espoo"
                  postal_code := some "" }
                source := if is_rental then "rental_data" else "sales_data"
                url := none
                is_for_sale := !is_rental
                extras := some {
                  year_built := if isna (rowGet row "year_of_construction" .na) then none
                                else some (rowGet row "year_of_construction" .na)
                  house_type := rowGet row "house_type" (.str "")
                  building_type := rowGet row "building_type" (.str "")
                  has_sauna := saunaField row } })

/-- `parse_csv_to_properties` over the parsed table: accepted rows in
order, numbered with fresh uuids from `n`; the first coercion error aborts
the batch (the surrounding `try` turns it into an HTTP 400). -/
def parse_csv_to_properties (rows : List Row) (is_rental : Bool) (n : ℕ) :
    Except String (List Doc) :=
  match rows with
  | [] => .ok []
  | r :: rs =>
    match parseRow r is_rental (freshId n) with
    | .error e => .error e
    | .ok none => parse_csv_to_properties rs is_rental n
    | .ok (some d) =>
      match parse_csv_to_properties rs is_rental (n + 1) with
      | .error e => .error e
      | .ok ds => .ok (d :: ds)

/-- A row is accepted by the coordinate filter iff the cells under the
exact column names `latitude` and `longitude` are both non-NA. -/
def coordAccepted (r : Row) : Bool :=
  !(isna (rowGet r "latitude" .na)) && !(isna (rowGet r "longitude" .na))

/-! ## Store write paths -/

/-- A FastAPI `HTTPException` as seen by the caller. -/
structure HttpError where
  status : ℕ
  detail : String
deriving DecidableEq, Repr

/-- True exactly when the endpoint surfaced an HTTP error to the caller. -/
def isHttpError {α : Type} : Except HttpError α → Bool
  | .error _ => true
  | .ok _ => false

/-- The HTTP status surfaced to the caller, if any. -/
def httpStatus {α : Type} : Except HttpError α → Option ℕ
  | .error e => some e.status
  | .ok _ => none

/-- `POST /api/properties/upload-csv`: parse then `insert_many`.  A parse
error raises HTTP 400 inside the handler's `try`, and the handler's own
`except Exception` catches that (and the 400 raised on an empty result)
and re-raises everything as HTTP 500 — so every failure is caller-visible
as a 500 and nothing is inserted.  Returns the new store and the caller's
view. -/
def upload_csv (store : List Doc) (rows : List Row) (n : ℕ) :
    List Doc × Except HttpError String :=
  match parse_csv_to_properties rows false n with
  | .error e => (store, .error ⟨500, "Error processing CSV file: 400: Error parsing CSV file: " ++ e⟩)
  | .ok [] =>
    (store, .error ⟨500, "Error processing CSV file: 400: No valid properties found in the CSV file"⟩)
  | .ok ps =>
    (store ++ ps, .ok ("Successfully imported " ++ toString ps.length ++ " properties"))

/-- `POST /api/import-default-data`: `delete_many({})`, then parse and
insert the sales file, then parse and insert the rental file.  A parse
error after the delete leaves the store in the partially rebuilt state and
surfaces HTTP 500. -/
def import_default_data (_store : List Doc) (sales rentals : List Row) (n : ℕ) :
    List Doc × Except HttpError String :=
  match parse_csv_to_properties sales false n with
  | .error e => ([], .error ⟨500, "Error importing default data: " ++ e⟩)
  | .ok sp =>
    match parse_csv_to_properties rentals true (n + sp.length) with
    | .error e => (sp, .error ⟨500, "Error importing default data: " ++ e⟩)
    | .ok rp =>
      (sp ++ rp,
       .ok ("Successfully imported " ++ toString (sp.length + rp.length) ++ " properties"))

/-- Request body of `POST /api/properties` (pydantic `PropertyCreate`):
`location` is an arbitrary dict, validated only as being a dict. -/
structure PropertyCreate where
  title : String
  price : ℚ
  price_currency : String := "EUR"
  property_type : String
  area : Option ℚ := none
  rooms : Option ℤ := none
  bathrooms : Option ℤ := none
  location : Loc
  source : String
  url : Option String := none
  is_for_sale : Bool := true
deriving DecidableEq, Repr

/-- `POST /api/properties`: wrap the payload in a `Property` (fresh id)
and `insert_one` it.  No coordinate validation happens anywhere. -/
def create_property (store : List Doc) (p : PropertyCreate) (n : ℕ) : List Doc × Doc :=
  let d : Doc := {
    id := freshId n
    title := .str p.title
    price := .val p.price
    price_currency := p.price_currency
    property_type := .literal p.property_type
    area := p.area.map .val
    rooms := p.rooms
    bathrooms := p.bathrooms
    location := p.location
    source := p.source
    url := p.url
    is_for_sale := p.is_for_sale
    extras := none }
  (store ++ [d], d)

/-- `delete_one({"id": pid})`: remove the first document with that id. -/
def removeFirst : List Doc → String → List Doc
  | [], _ => []
  | d :: ds, pid => if d.id = pid then ds else d :: removeFirst ds pid

/-- `DELETE /api/properties/{id}`: 404 when nothing matches. -/
def delete_property (store : List Doc) (pid : String) :
    List Doc × Except HttpError String :=
  if store.any (fun d => d.id = pid) then
    (removeFirst store pid, .ok "Property deleted successfully")
  else
    (store, .error ⟨404, "Property not found"⟩)

/-- A write operation against the property store. -/
inductive StoreOp where
  | uploadCsv (rows : List Row)
  | importDefault (sales rentals : List Row)
  | create (p : PropertyCreate)
  | deleteById (pid : String)

/-- Whether the operation is a direct property creation. -/
def StoreOp.isCreate : StoreOp → Bool
  | .create _ => true
  | _ => false

/-- Apply one operation to (store, uuid counter).  The counter advances
past every uuid the operation could have drawn. -/
def applyOp : List Doc × ℕ → StoreOp → List Doc × ℕ
  | (store, n), .uploadCsv rows => ((upload_csv store rows n).1, n + rows.length)
  | (store, n), .importDefault sales rentals =>
      ((import_default_data store sales rentals n).1, n + sales.length + rentals.length)
  | (store, n), .create p => ((create_property store p n).1, n + 1)
  | (store, n), .deleteById pid => ((delete_property store pid).1, n)

/-- Run a sequence of write operations. -/
def applyOps (init : List Doc × ℕ) (ops : List StoreOp) : List Doc × ℕ :=
  ops.foldl applyOp init

/-- A document has numeric, non-null coordinates (the `location` dict has
a `coordinates` key holding numbers). -/
def Doc.has_numeric_coords (d : Doc) : Bool :=
  d.location.coordinates.isSome

/-! ## RegionAggregator: `GET /api/properties/stats/regions` -/

/-- First-occurrence deduplication, the key order of a Python dict /
the group keys produced by the aggregation. -/
def firstDedup {α : Type} [DecidableEq α] (seen : List α) : List α → List α
  | [] => []
  | k :: ks => if k ∈ seen then firstDedup seen ks else k :: firstDedup (k :: seen) ks

/-- Mongo `$avg`: null when no values, otherwise sum divided by count
(NaN propagates). -/
def mongoAvg (xs : List PyFloat) : Option PyFloat :=
  match xs with
  | [] => none
  | _ => some ((xs.foldl PyFloat.add (.val 0)).div (.val (xs.length : ℚ)))

/-- `item["_id"] if item["_id"] else "Unknown"`: a missing/null region —
or an empty string, which is falsy in Python — displays as "Unknown". -/
def regionName : Option String → String
  | none => "Unknown"
  | some s => if s = "" then "Unknown" else s

/-- The ROI computation of `get_region_stats`:
`if avg_sale_price and avg_rent_price and avg_rent_price > 0:` then
`roi_years = avg_sale_price / (avg_rent_price * 12)` else `None`. -/
def regionRoi (s r : Option PyFloat) : Option PyFloat :=
  match s, r with
  | some sv, some rv =>
    if sv.truthy && rv.truthy && rv.gt (.val 0) then
      some (sv.div (rv.mul (.val 12)))
    else none
  | _, _ => none

/-- One region statistics record as returned by the endpoint. -/
structure RegionStat where
  region_name : String
  avg_sale_price : Option PyFloat
  avg_rent_price : Option PyFloat
  roi_years : Option PyFloat
  property_count : ℕ
  sale_count : ℕ
  rent_count : ℕ
deriving DecidableEq, Repr

/-- The group record for one region key (the Mongo `$group` stage plus
the Python post-processing loop). -/
def regionStatFor (docs : List Doc) (k : Option String) : RegionStat :=
  let members := docs.filter (fun d => d.location.region = k)
  let sales := members.filter (fun d => d.is_for_sale)
  let rents := members.filter (fun d => !d.is_for_sale)
  let avgS := mongoAvg (sales.map (fun d => d.price))
  let avgR := mongoAvg (rents.map (fun d => d.price))
  { region_name := regionName k
    avg_sale_price := avgS
    avg_rent_price := avgR
    roi_years := regionRoi avgS avgR
    property_count := members.length
    sale_count := sales.length
    rent_count := rents.length }

/-- `GET /api/properties/stats/regions`: one record per distinct
`location.region` value (missing key groups under null). -/
def get_region_stats (docs : List Doc) : List RegionStat :=
  (firstDedup [] (docs.map (fun d => d.location.region))).map (regionStatFor docs)

/-! ## CoordinateROIAnalyzer: `GET /api/roi-analysis` -/

/-- One per-coordinate ROI record as returned by the endpoint. -/
structure ROIResult where
  coordinates : List ℚ
  avg_sale_price : PyFloat
  avg_monthly_rent : PyFloat
  roi_years : PyFloat
  address : Cell
deriving DecidableEq, Repr

/-- Python `sum(...)`: fold `+` starting from 0. -/
def pySum (xs : List PyFloat) : PyFloat :=
  xs.foldl PyFloat.add (.val 0)

/-- `sum(prices) / len(prices)`; call sites guarantee a nonempty list. -/
def pyAvg (xs : List PyFloat) : PyFloat :=
  (pySum xs).div (.val (xs.length : ℚ))

/-- The loop body of `get_roi_analysis` for one coordinate group:
`.ok none` when the group is skipped (single polarity, or annualised rent
not `> 0`), `.ok (some r)` when a record is emitted, `.error` when the
representative sale record's location lacks an `address` key (`KeyError`,
surfaced as HTTP 500 by the handler's `except`). -/
def roiForCoords (salesP rentsP : List Doc) (k : List ℚ) :
    Except HttpError (Option ROIResult) :=
  let salesK := salesP.filter (fun d => d.location.coordinates = some k)
  let rentsK := rentsP.filter (fun d => d.location.coordinates = some k)
  if salesK.isEmpty || rentsK.isEmpty then .ok none
  else
    let avg_sale_price := pyAvg (salesK.map (fun d => d.price))
    let avg_monthly_rent := pyAvg (rentsK.map (fun d => d.price))
    let annual_rent := avg_monthly_rent.mul (.val 12)
    if annual_rent.gt (.val 0) then
      match salesK.head? with
      | some s0 =>
        match s0.location.address with
        | some a =>
          .ok (some {
            coordinates := k
            avg_sale_price := avg_sale_price
            avg_monthly_rent := avg_monthly_rent
            roi_years := avg_sale_price.div annual_rent
            address := a })
        | none => .error ⟨500, "Error generating ROI analysis: 'address'"⟩
      | none => .ok none
    else .ok none

/-- Emit records for the keys in order (first error aborts, matching the
exception escaping the Python loop). -/
def roiLoop (salesP rentsP : List Doc) : List (List ℚ) → Except HttpError (List ROIResult)
  | [] => .ok []
  | k :: ks =>
    match roiForCoords salesP rentsP k with
    | .error e => .error e
    | .ok none => roiLoop salesP rentsP ks
    | .ok (some r) =>
      match roiLoop salesP rentsP ks with
      | .error e => .error e
      | .ok rs => .ok (r :: rs)

/-- `GET /api/roi-analysis`: group every property by the exact value of
`location.coordinates` (sales first, then rentals — Python dict insertion
order), then emit per-group records.  A document without a `coordinates`
key raises `KeyError` while the groups are being built, surfaced as
HTTP 500. -/
def get_roi_analysis (store : List Doc) : Except HttpError (List ROIResult) :=
  let sale_properties := store.filter (fun d => d.is_for_sale)
  let rent_properties := store.filter (fun d => !d.is_for_sale)
  if (sale_properties ++ rent_properties).any (fun d => d.location.coordinates = none) then
    .error ⟨500, "Error generating ROI analysis: 'coordinates'"⟩
  else
    roiLoop sale_properties rent_properties
      (firstDedup []
        ((sale_properties ++ rent_properties).filterMap (fun d => d.location.coordinates)))

/-! ## BuildingGeometryIngester: `fetch_buildings_from_osm` -/

/-- An element of the Overpass response (`other` covers relations and any
element shape the processing loops ignore). -/
inductive OsmElement where
  | node (id : ℤ) (lat lon : ℚ)
  | way (id : ℤ) (nodeIds : List ℤ) (tags : Option (List (String × String)))
  | other
deriving DecidableEq, Repr

/-- The `nodes` dict: id ↦ (lat, lon), later occurrences overwriting
earlier ones. -/
def lookupNode (els : List OsmElement) (i : ℤ) : Option (ℚ × ℚ) :=
  els.foldl
    (fun acc e =>
      match e with
      | .node j lat lon => if j = i then some (lat, lon) else acc
      | _ => acc)
    none

/-- `tags.get(k, dflt)` (later duplicate keys overwrite earlier ones,
as in a parsed JSON object). -/
def tagGet (tags : List (String × String)) (k dflt : String) : String :=
  tags.foldl (fun acc p => if p.1 = k then p.2 else acc) dflt

/-- `"k" in tags`. -/
def tagHas (tags : List (String × String)) (k : String) : Bool :=
  tags.any (fun p => p.1 = k)

/-- The coordinate ring of a way: each referenced node that resolves in
the node dict contributes `[lon, lat]` (modelled as the pair (lon, lat));
unresolvable ids are silently skipped. -/
def wayCoords (els : List OsmElement) (nodeIds : List ℤ) : List (ℚ × ℚ) :=
  nodeIds.filterMap (fun i => (lookupNode els i).map (fun p => (p.2, p.1)))

/-- `if coords and coords[0] != coords[-1]: coords.append(coords[0])`. -/
def closeRing (cs : List (ℚ × ℚ)) : List (ℚ × ℚ) :=
  if cs ≠ [] ∧ cs.head? ≠ cs.getLast? then cs ++ cs.take 1 else cs

/-- A building feature as returned by the endpoint (`gtype` is the
GeoJSON `geometry.type`, `rings` the `geometry.coordinates`). -/
structure Building where
  id : String
  gtype : String
  rings : List (List (ℚ × ℚ))
  name : String
  building_type : String
  levels : String
  height : String
  address : String
deriving DecidableEq, Repr

/-- Process one building-tagged way: emit a Building iff the closed ring
has at least 4 points. -/
def processWay (els : List OsmElement) (wid : ℤ) (nodeIds : List ℤ)
    (tags : List (String × String)) : Option Building :=
  let coords := wayCoords els nodeIds
  let ring := closeRing coords
  if 4 ≤ ring.length then
    some {
      id := toString wid
      gtype := "Polygon"
      rings := [ring]
      name := tagGet tags "name" ""
      building_type := tagGet tags "building" "yes"
      levels := tagGet tags "building:levels" ""
      height := tagGet tags "height" ""
      address := (tagGet tags "addr:street" "" ++ " " ++ tagGet tags "addr:housenumber" "").trim }
  else none

/-- The processing of a well-formed payload: ways that carry a `tags`
dict containing the key `building`, in order. -/
def processElements (els : List OsmElement) : List Building :=
  els.filterMap (fun e =>
    match e with
    | .way wid nodeIds (some tags) =>
      if tagHas tags "building" then processWay els wid nodeIds tags else none
    | _ => none)

/-- How the Overpass call can come back: a transport error (any
`aiohttp` exception), or an HTTP response whose body either parses into
elements or is malformed (`response.json()` or the element processing
raising). -/
inductive PayloadParse where
  | parsed (els : List OsmElement)
  | malformed
deriving DecidableEq, Repr

/-- Outcome of contacting the Overpass API. -/
inductive FetchOutcome where
  | transportError
  | httpResponse (status : ℕ) (body : PayloadParse)
deriving DecidableEq, Repr

/-- The outcome is one of the failure modes of §4.4: transport error,
non-200 status, or malformed payload. -/
def FetchOutcome.isFailure : FetchOutcome → Bool
  | .transportError => true
  | .httpResponse _ .malformed => true
  | .httpResponse s (.parsed _) => s ≠ 200

/-- `fetch_buildings_from_osm`: non-200 returns `[]`; the surrounding
`try/except` turns every exception (transport, JSON parse, malformed
elements) into `[]` as well. -/
def fetch_buildings_from_osm : FetchOutcome → List Building
  | .transportError => []
  | .httpResponse status body =>
    if status ≠ 200 then []
    else
      match body with
      | .malformed => []
      | .parsed els => processElements els

/-! ## Lemmas about the normalizer -/

/-- A row failing the coordinate filter is skipped, not erroring. -/
theorem parseRow_skip (row : Row) (b : Bool) (pid : String)
    (h : coordAccepted row = false) : parseRow row b pid = .ok none := by
  unfold coordAccepted at h
  simp only [parseRow]
  cases hla : isna (rowGet row "latitude" Cell.na) <;>
    cases hlo : isna (rowGet row "longitude" Cell.na) <;>
    simp_all

/-- A row passing the coordinate filter is never silently skipped: it
yields a document or aborts the batch. -/
theorem parseRow_accepted_ne_none (row : Row) (b : Bool) (pid : String)
    (h : coordAccepted row = true) : parseRow row b pid ≠ .ok none := by
  unfold coordAccepted at h
  simp only [parseRow]
  cases hla : isna (rowGet row "latitude" Cell.na) <;>
    cases hlo : isna (rowGet row "longitude" Cell.na)
  all_goals simp_all
  intro hcontra
  repeat' split at hcontra
  all_goals simp_all

/-- Fields of a document produced from an accepted row: the hard-coded
constants, the presence of numeric coordinates, and the price coercion. -/
theorem parseRow_fields (row : Row) (b : Bool) (pid : String) (d : Doc)
    (h : parseRow row b pid = .ok (some d)) :
    d.price_currency = "EUR" ∧ d.location.city = some "Espoo" ∧
    d.location.region = some "Espoo" ∧ d.location.postal_code = some "" ∧
    d.bathrooms = some 1 ∧ d.location.coordinates.isSome = true ∧
    pyFloat (rowGet row "price" (Cell.num 0)) = .ok d.price := by
  simp only [parseRow] at h
  repeat' split at h
  all_goals simp_all
  all_goals (cases h; simp_all)

/-- When a parse succeeds, it yields exactly one document per row passing
the coordinate filter. -/
theorem parse_accepted_length (rows : List Row) (b : Bool) (n : ℕ) (ds : List Doc)
    (h : parse_csv_to_properties rows b n = .ok ds) :
    ds.length = (rows.filter coordAccepted).length := by
  induction rows generalizing n ds with
  | nil =>
    simp only [parse_csv_to_properties] at h
    cases h
    simp
  | cons r rs ih =>
    unfold parse_csv_to_properties at h
    cases hacc : coordAccepted r with
    | false =>
      rw [parseRow_skip r b _ hacc] at h
      rw [List.filter_cons_of_neg (by simp [hacc])]
      exact ih _ _ h
    | true =>
      cases hpr : parseRow r b (freshId n) with
      | error e => rw [hpr] at h; exact absurd h (by simp)
      | ok o =>
        cases o with
        | none => exact absurd hpr (parseRow_accepted_ne_none r b _ hacc)
        | some d =>
          rw [hpr] at h
          cases hrec : parse_csv_to_properties rs b (n + 1) with
          | error e => rw [hrec] at h; exact absurd h (by simp)
          | ok ds' =>
            rw [hrec] at h
            cases h
            rw [List.filter_cons_of_pos (by simp [hacc])]
            simp [ih _ _ hrec]

/-- Every document of a successful parse comes from some row of the
table via `parseRow`. -/
theorem parse_provenance (rows : List Row) (b : Bool) (n : ℕ) (ds : List Doc)
    (h : parse_csv_to_properties rows b n = .ok ds) :
    ∀ d ∈ ds, ∃ row pid, row ∈ rows ∧ parseRow row b pid = .ok (some d) := by
  induction rows generalizing n ds with
  | nil =>
    simp only [parse_csv_to_properties] at h
    cases h
    simp
  | cons r rs ih =>
    unfold parse_csv_to_properties at h
    cases hpr : parseRow r b (freshId n) with
    | error e => rw [hpr] at h; exact absurd h (by simp)
    | ok o =>
      cases o with
      | none =>
        rw [hpr] at h
        intro d hd
        obtain ⟨row, pid, hrow, hp⟩ := ih _ _ h d hd
        exact ⟨row, pid, List.mem_cons_of_mem _ hrow, hp⟩
      | some d' =>
        rw [hpr] at h
        cases hrec : parse_csv_to_properties rs b (n + 1) with
        | error e => rw [hrec] at h; exact absurd h (by simp)
        | ok ds' =>
          rw [hrec] at h
          cases h
          intro d hd
          rcases List.mem_cons.mp hd with rfl | hmem
          · exact ⟨r, freshId n, List.mem_cons_self _ _, hpr⟩
          · obtain ⟨row, pid, hrow, hp⟩ := ih _ _ hrec d hmem
            exact ⟨row, pid, List.mem_cons_of_mem _ hrow, hp⟩

/-- Every document of a successful parse has numeric coordinates. -/
theorem parse_all_coords (rows : List Row) (b : Bool) (n : ℕ) (ds : List Doc)
    (h : parse_csv_to_properties rows b n = .ok ds) :
    ds.all Doc.has_numeric_coords = true := by
  rw [List.all_eq_true]
  intro d hd
  obtain ⟨row, pid, -, hp⟩ := parse_provenance rows b n ds h d hd
  exact (parseRow_fields row b pid d hp).2.2.2.2.2.1

/-- `removeFirst` only removes, so any pointwise property survives it. -/
theorem removeFirst_all (store : List Doc) (pid : String) (p : Doc → Bool)
    (h : store.all p = true) : (removeFirst store pid).all p = true := by
  induction store with
  | nil => simp [removeFirst]
  | cons d ds ih =>
    simp only [List.all_cons, Bool.and_eq_true] at h
    unfold removeFirst
    split
    · exact h.2
    · simp only [List.all_cons, Bool.and_eq_true]
      exact ⟨h.1, ih h.2⟩

/-- One non-`create` write operation preserves the coordinate invariant. -/
theorem applyOp_coords (store : List Doc) (n : ℕ) (op : StoreOp)
    (hop : op.isCreate = false)
    (hinv : store.all Doc.has_numeric_coords = true) :
    (applyOp (store, n) op).1.all Doc.has_numeric_coords = true := by
  cases op with
  | uploadCsv rows =>
    simp only [applyOp, upload_csv]
    cases hp : parse_csv_to_properties rows false n with
    | error e => exact hinv
    | ok ps =>
      cases ps with
      | nil => exact hinv
      | cons d ds =>
        simp only [List.all_append, Bool.and_eq_true]
        exact ⟨hinv, parse_all_coords rows false n _ hp⟩
  | importDefault sales rentals =>
    simp only [applyOp, import_default_data]
    split
    · simp
    · rename_i sp hs
      split
      · rename_i e hr
        exact parse_all_coords sales false n sp hs
      · rename_i rp hr
        simp only [List.all_append, Bool.and_eq_true]
        exact ⟨parse_all_coords sales false n sp hs,
               parse_all_coords rentals true _ rp hr⟩
  | create p => simp [StoreOp.isCreate] at hop
  | deleteById pid =>
    simp only [applyOp, delete_property]
    split
    · exact removeFirst_all store pid _ hinv
    · exact hinv

/-! ## Lemmas about the aggregators -/

theorem firstDedup_all_eq_of_seen {α : Type} [DecidableEq α] (a : α)
    (seen : List α) (l : List α) (ha : a ∈ seen) (h : ∀ x ∈ l, x = a) :
    firstDedup seen l = [] := by
  induction l with
  | nil => rfl
  | cons x xs ih =>
    have hx : x = a := h x (List.mem_cons_self _ _)
    subst hx
    unfold firstDedup
    rw [if_pos ha]
    exact ih (fun y hy => h y (List.mem_cons_of_mem _ hy))

theorem firstDedup_const {α : Type} [DecidableEq α] (a : α) (l : List α)
    (hne : l ≠ []) (h : ∀ x ∈ l, x = a) : firstDedup [] l = [a] := by
  cases l with
  | nil => exact absurd rfl hne
  | cons x xs =>
    have hx : x = a := h x (List.mem_cons_self _ _)
    subst hx
    unfold firstDedup
    rw [if_neg (List.not_mem_nil x)]
    rw [firstDedup_all_eq_of_seen x [x] xs (List.mem_cons_self _ _)
      (fun y hy => h y (List.mem_cons_of_mem _ hy))]

/-- Every emitted region statistic computes its `roi_years` from its own
two averages by `regionRoi`. -/
theorem get_region_stats_roi (docs : List Doc) (st : RegionStat)
    (h : st ∈ get_region_stats docs) :
    st.roi_years = regionRoi st.avg_sale_price st.avg_rent_price := by
  unfold get_region_stats at h
  rw [List.mem_map] at h
  obtain ⟨k, -, rfl⟩ := h
  rfl

/-- A float strictly greater than 0.0 is truthy. -/
theorem PyFloat.truthy_of_gt_zero (f : PyFloat) (h : f.gt (.val 0) = true) :
    f.truthy = true := by
  cases f with
  | nan => simp [PyFloat.gt] at h
  | val q =>
    simp only [PyFloat.gt, decide_eq_true_eq] at h
    simp only [PyFloat.truthy, decide_eq_true_eq]
    exact ne_of_gt h

/-- If the annualised rent average is strictly positive then the rent
average is neither NaN nor 0.0. -/
theorem rent_avg_ne_zero (r : PyFloat) (h : (r.mul (.val 12)).gt (.val 0) = true) :
    r ≠ .val 0 := by
  intro hr
  subst hr
  rw [show (PyFloat.val 0).mul (.val 12) = .val (qMul 0 12) from rfl] at h
  rw [show qMul 0 12 = (0 : ℚ) * 12 from qMul_eq 0 12] at h
  simp [PyFloat.gt] at h

/-- Membership in the result of `roiLoop` traces back to one key. -/
theorem roiLoop_mem (salesP rentsP : List Doc) (ks : List (List ℚ))
    (res : List ROIResult) (h : roiLoop salesP rentsP ks = .ok res) :
    ∀ r ∈ res, ∃ k, roiForCoords salesP rentsP k = .ok (some r) := by
  induction ks generalizing res with
  | nil =>
    simp only [roiLoop] at h
    cases h
    simp
  | cons k ks ih =>
    unfold roiLoop at h
    cases hk : roiForCoords salesP rentsP k with
    | error e => rw [hk] at h; exact absurd h (by simp)
    | ok o =>
      cases o with
      | none => rw [hk] at h; exact ih res h
      | some r0 =>
        rw [hk] at h
        cases hrec : roiLoop salesP rentsP ks with
        | error e => rw [hrec] at h; exact absurd h (by simp)
        | ok rs =>
          rw [hrec] at h
          cases h
          intro r hr
          rcases List.mem_cons.mp hr with rfl | hmem
          · exact ⟨k, hk⟩
          · exact ih rs hrec r hmem

/-- Anatomy of an emitted per-coordinate record: its group is non-empty
in both polarities, its averages are the Python means of the group's
prices, the annualised rent is strictly positive, and the ROI is the
quotient.  Also fixes `coordinates` to the group key. -/
theorem roiForCoords_some (salesP rentsP : List Doc) (k : List ℚ) (r : ROIResult)
    (h : roiForCoords salesP rentsP k = .ok (some r)) :
    r.coordinates = k ∧
    (salesP.filter (fun d => d.location.coordinates = some k)) ≠ [] ∧
    (rentsP.filter (fun d => d.location.coordinates = some k)) ≠ [] ∧
    r.avg_sale_price =
      pyAvg ((salesP.filter (fun d => d.location.coordinates = some k)).map (fun d => d.price)) ∧
    r.avg_monthly_rent =
      pyAvg ((rentsP.filter (fun d => d.location.coordinates = some k)).map (fun d => d.price)) ∧
    (r.avg_monthly_rent.mul (.val 12)).gt (.val 0) = true ∧
    r.roi_years = r.avg_sale_price.div (r.avg_monthly_rent.mul (.val 12)) := by
  simp only [roiForCoords] at h
  repeat' split at h
  all_goals simp_all
  all_goals (cases h; simp_all [List.isEmpty_iff])

/-- The coordinates of an accepted row are resolved from the exact column
names `longitude` and `latitude`, in the order `[longitude, latitude]`. -/
theorem parseRow_coords (row : Row) (b : Bool) (pid : String) (d : Doc)
    (h : parseRow row b pid = .ok (some d)) :
    ∃ lngF latF, pyFloat (rowGet row "longitude" Cell.na) = .ok lngF ∧
      pyFloat (rowGet row "latitude" Cell.na) = .ok latF ∧
      d.location.coordinates = some [lngF.toRat, latF.toRat] := by
  simp only [parseRow] at h
  repeat' split at h
  all_goals try exact Except.noConfusion h
  all_goals injection h with h1
  all_goals try exact Option.noConfusion h1
  all_goals
  · injection h1 with h2
    subst h2
    exact ⟨_, _, by assumption, by assumption, rfl⟩

/-! ## The claims -/

/-- C4: for every way element processed by the building ingester, an open
resolved ring (first ≠ last) is closed by appending the first coordinate,
and the way is emitted as a `Building` — whose geometry is exactly the
closed ring — if and only if that closed ring has at least 4 points. -/
theorem c4_ring_closure (els : List OsmElement) (wid : ℤ) (nodeIds : List ℤ)
    (tags : List (String × String)) :
    ((wayCoords els nodeIds ≠ [] ∧
        (wayCoords els nodeIds).head? ≠ (wayCoords els nodeIds).getLast?) →
      closeRing (wayCoords els nodeIds)
        = wayCoords els nodeIds ++ (wayCoords els nodeIds).take 1) ∧
    (Option.isSome (processWay els wid nodeIds tags)
        = decide (4 ≤ (closeRing (wayCoords els nodeIds)).length)) ∧
    (∀ bld, processWay els wid nodeIds tags = some bld →
      bld.rings = [closeRing (wayCoords els nodeIds)]) := by
  refine ⟨?_, ?_, ?_⟩
  · intro hcond
    unfold closeRing
    rw [if_pos hcond]
  · simp only [processWay]
    split
    · rename_i hle
      simp [hle]
    · rename_i hlt
      simp [hlt]
  · intro bld hb
    simp only [processWay] at hb
    split at hb
    · cases hb
      rfl
    · exact absurd hb (by simp)

/-- C4 witness: a way over 3 distinct resolvable nodes closes to 4 points
and is retained; a way over 2 distinct resolvable nodes closes to 3
points and is discarded; the open 3-node ring is closed by appending its
first coordinate. -/
theorem c4_witness :
    Option.isSome (processWay
      [.node 1 60 24, .node 2 61 25, .node 3 62 26] 10 [1, 2, 3]
      [("building", "yes")]) = true ∧
    Option.isSome (processWay
      [.node 1 60 24, .node 2 61 25, .node 3 62 26] 11 [1, 2]
      [("building", "yes")]) = false ∧
    closeRing (wayCoords [.node 1 60 24, .node 2 61 25, .node 3 62 26] [1, 2, 3])
      = wayCoords [.node 1 60 24, .node 2 61 25, .node 3 62 26] [1, 2, 3]
        ++ (wayCoords [.node 1 60 24, .node 2 61 25, .node 3 62 26] [1, 2, 3]).take 1 := by
  refine ⟨?_, ?_, ?_⟩
  · rw [(c4_ring_closure [.node 1 60 24, .node 2 61 25, .node 3 62 26] 10 [1, 2, 3]
      [("building", "yes")]).2.1]
    decide
  · rw [(c4_ring_closure [.node 1 60 24, .node 2 61 25, .node 3 62 26] 11 [1, 2]
      [("building", "yes")]).2.1]
    decide
  · exact (c4_ring_closure [.node 1 60 24, .node 2 61 25, .node 3 62 26] 10 [1, 2, 3]
      [("building", "yes")]).1 (by decide)

/-- C9: every failure of the building fetch — transport error, non-200
status, or malformed payload — yields the empty sequence, never a
caller-visible error. -/
theorem c9_failures_empty (o : FetchOutcome) (h : o.isFailure = true) :
    fetch_buildings_from_osm o = [] := by
  cases o with
  | transportError => rfl
  | httpResponse s body =>
    cases body with
    | malformed =>
      simp only [fetch_buildings_from_osm]
      split <;> rfl
    | parsed els =>
      simp only [FetchOutcome.isFailure, decide_eq_true_eq] at h
      simp only [fetch_buildings_from_osm]
      rw [if_pos h]

/-- C1 (amended): in every emitted region statistic, `roi_years` equals
`avg_sale_price / (avg_rent_price * 12)` when both averages are non-null,
`avg_sale_price` is Python-truthy (nonzero; NaN counts as truthy) and
`avg_rent_price > 0`; `roi_years` is null in every other case — in
particular when `avg_sale_price` is 0.0, even though both averages exist
and the rent average is positive. -/
theorem c1_region_roi (docs : List Doc) (st : RegionStat)
    (h : st ∈ get_region_stats docs) :
    (∀ sv rv, st.avg_sale_price = some sv → st.avg_rent_price = some rv →
      sv.truthy = true → rv.gt (.val 0) = true →
      st.roi_years = some (sv.div (rv.mul (.val 12)))) ∧
    (st.avg_sale_price = none → st.roi_years = none) ∧
    (st.avg_rent_price = none → st.roi_years = none) ∧
    (∀ sv, st.avg_sale_price = some sv → sv.truthy = false → st.roi_years = none) ∧
    (∀ rv, st.avg_rent_price = some rv → rv.gt (.val 0) = false → st.roi_years = none) := by
  have hr := get_region_stats_roi docs st h
  refine ⟨?_, ?_, ?_, ?_, ?_⟩
  · intro sv rv hs hrv ht hgt
    rw [hr, hs, hrv]
    simp [regionRoi, ht, hgt, PyFloat.truthy_of_gt_zero rv hgt]
  · intro hs
    rw [hr, hs]
    rfl
  · intro hrv
    rw [hr, hrv]
    cases st.avg_sale_price <;> rfl
  · intro sv hs ht
    rw [hr, hs]
    cases hrv : st.avg_rent_price <;> simp [regionRoi, ht]
  · intro rv hrv hgt
    rw [hr, hrv]
    cases hs : st.avg_sale_price <;> simp [regionRoi, hgt]

/-- Sales rows (one property, price 0) for the C1 counterexample. -/
def c1badSales : List Row :=
  [[("latitude", .num 60), ("longitude", .num 24), ("price", .num 0)]]

/-- Rental rows (one property, price 500) for the C1 counterexample. -/
def c1badRentals : List Row :=
  [[("latitude", .num 60), ("longitude", .num 24), ("price", .num 500)]]

/-- A store reached by reset-and-reimport of the two files above. -/
def c1bad : List Doc := (import_default_data [] c1badSales c1badRentals 0).1

/-- C1 counterexample: in this store the single region group has
`avg_sale_price = 0.0` (non-null) and `avg_rent_price = 500.0 > 0`, yet
`roi_years` is null rather than `0 / (500 * 12)` — refuting the claim
that `roi_years` is the quotient whenever both averages are non-null and
the rent average is positive. -/
theorem c1_counterexample :
    (get_region_stats c1bad).map RegionStat.avg_sale_price = [some (.val 0)] ∧
    (get_region_stats c1bad).map RegionStat.avg_rent_price = [some (.val 500)] ∧
    PyFloat.gt (.val 500) (.val 0) = true ∧
    (get_region_stats c1bad).map RegionStat.roi_years = [none] ∧
    (get_region_stats c1bad).map RegionStat.roi_years
      ≠ [some ((PyFloat.val 0).div ((PyFloat.val 500).mul (.val 12)))] := by
  decide

/-- Sales rows ({100000, 200000}) of the claim's concrete example. -/
def c1goodSales : List Row :=
  [[("latitude", .num 60), ("longitude", .num 24), ("price", .num 100000)],
   [("latitude", .num 60), ("longitude", .num 24), ("price", .num 200000)]]

/-- Rental rows ({500, 700}) of the claim's concrete example. -/
def c1goodRentals : List Row :=
  [[("latitude", .num 60), ("longitude", .num 24), ("price", .num 500)],
   [("latitude", .num 60), ("longitude", .num 24), ("price", .num 700)]]

/-- A store reached by reset-and-reimport of the two files above. -/
def c1good : List Doc := (import_default_data [] c1goodSales c1goodRentals 0).1

/-- C1 witness: on the claim's example region (sales {100000, 200000},
rentals {500, 700}) the emitted statistic has `avg_sale_price = 150000`,
`avg_rent_price = 600`, and `roi_years = 150000 / (600 * 12) = 125/6 ≈
20.8333`. -/
theorem c1_witness :
    ({ region_name := "Espoo", avg_sale_price := some (.val 150000),
       avg_rent_price := some (.val 600), roi_years := some (.val (mkQ 125 6)),
       property_count := 4, sale_count := 2, rent_count := 2 } : RegionStat).roi_years
      = some ((PyFloat.val 150000).div ((PyFloat.val 600).mul (.val 12))) :=
  (c1_region_roi c1good
    { region_name := "Espoo", avg_sale_price := some (.val 150000),
      avg_rent_price := some (.val 600), roi_years := some (.val (mkQ 125 6)),
      property_count := 4, sale_count := 2, rent_count := 2 }
    (by decide)).1 (.val 150000) (.val 600) rfl rfl (by decide) (by decide)

/-- C3: every record emitted by the per-coordinate ROI analysis comes
from a group (under exact coordinate equality) holding at least one sale
and at least one rental; its `avg_sale_price` / `avg_monthly_rent` are
the means of the group's sale and rental prices, the rent average is
positive (hence non-zero), and `roi_years = avg_sale_price /
(avg_monthly_rent * 12)`.  Single-polarity groups are never emitted,
regardless of size. -/
theorem c3_roi_soundness (store : List Doc) (res : List ROIResult) (r : ROIResult)
    (h : get_roi_analysis store = .ok res) (hr : r ∈ res) :
    ((store.filter (fun d => d.is_for_sale)).filter
        (fun d => d.location.coordinates = some r.coordinates)) ≠ [] ∧
    ((store.filter (fun d => !d.is_for_sale)).filter
        (fun d => d.location.coordinates = some r.coordinates)) ≠ [] ∧
    r.avg_sale_price = pyAvg (((store.filter (fun d => d.is_for_sale)).filter
        (fun d => d.location.coordinates = some r.coordinates)).map (fun d => d.price)) ∧
    r.avg_monthly_rent = pyAvg (((store.filter (fun d => !d.is_for_sale)).filter
        (fun d => d.location.coordinates = some r.coordinates)).map (fun d => d.price)) ∧
    (r.avg_monthly_rent.mul (.val 12)).gt (.val 0) = true ∧
    r.avg_monthly_rent ≠ .val 0 ∧
    r.roi_years = r.avg_sale_price.div (r.avg_monthly_rent.mul (.val 12)) := by
  simp only [get_roi_analysis] at h
  split at h
  · exact Except.noConfusion h
  · obtain ⟨k, hk⟩ := roiLoop_mem _ _ _ res h r hr
    obtain ⟨hcoord, h1, h2, h3, h4, h5, h6⟩ := roiForCoords_some _ _ k r hk
    subst hcoord
    exact ⟨h1, h2, h3, h4, h5, rent_avg_ne_zero _ h5, h6⟩

/-- Sales rows for the C3 witness store. -/
def c3sales : List Row :=
  [[("latitude", .num 60), ("longitude", .num 24), ("price", .num 120000),
    ("address", .str "Otakaari 1")]]

/-- Rental rows for the C3 witness store. -/
def c3rentals : List Row :=
  [[("latitude", .num 60), ("longitude", .num 24), ("price", .num 1000),
    ("address", .str "Otakaari 1")]]

/-- A store reached by reset-and-reimport of the two files above. -/
def c3store : List Doc := (import_default_data [] c3sales c3rentals 0).1

/-- The analysis result on that store. -/
def c3res : List ROIResult := (get_roi_analysis c3store).toOption.getD []

/-- Its single record. -/
def c3r : ROIResult := c3res.headD ⟨[], .nan, .nan, .nan, .na⟩

/-- C3 witness: the emitted record at [24, 60] averages the one sale
(120000) and the one rental (1000), has a positive rent average, and
`roi_years = 120000 / 12000 = 10`. -/
theorem c3_witness :
    ((c3store.filter (fun d => d.is_for_sale)).filter
        (fun d => d.location.coordinates = some c3r.coordinates)) ≠ [] ∧
    ((c3store.filter (fun d => !d.is_for_sale)).filter
        (fun d => d.location.coordinates = some c3r.coordinates)) ≠ [] ∧
    c3r.avg_sale_price = pyAvg (((c3store.filter (fun d => d.is_for_sale)).filter
        (fun d => d.location.coordinates = some c3r.coordinates)).map (fun d => d.price)) ∧
    c3r.avg_monthly_rent = pyAvg (((c3store.filter (fun d => !d.is_for_sale)).filter
        (fun d => d.location.coordinates = some c3r.coordinates)).map (fun d => d.price)) ∧
    (c3r.avg_monthly_rent.mul (.val 12)).gt (.val 0) = true ∧
    c3r.avg_monthly_rent ≠ .val 0 ∧
    c3r.roi_years = c3r.avg_sale_price.div (c3r.avg_monthly_rent.mul (.val 12)) :=
  c3_roi_soundness c3store c3res c3r rfl (by decide)

/-- Helper for C2: non-`create` operation sequences preserve the
coordinate invariant from any invariant-satisfying state. -/
theorem applyOps_coords (ops : List StoreOp) :
    ∀ init : List Doc × ℕ, init.1.all Doc.has_numeric_coords = true →
    ops.all (fun o => !o.isCreate) = true →
    (applyOps init ops).1.all Doc.has_numeric_coords = true := by
  induction ops with
  | nil =>
    intro init hinit _
    exact hinit
  | cons op ops ih =>
    intro init hinit hops
    simp only [List.all_cons, Bool.and_eq_true, Bool.not_eq_true'] at hops
    obtain ⟨store, n⟩ := init
    unfold applyOps
    rw [List.foldl_cons]
    exact ih (applyOp (store, n) op)
      (applyOp_coords store n op hops.1 hinit) (by simpa using hops.2)

/-- C2 (amended): every record stored by the CSV ingestion paths has
numeric, non-null coordinates — rows without them are dropped — and the
invariant survives any sequence of uploads, reset-and-reimports and
deletions; it does NOT survive direct property creation, which performs
no coordinate validation. -/
theorem c2_csv_invariant (ops : List StoreOp)
    (h : ops.all (fun o => !o.isCreate) = true) :
    ((applyOps ([], 0) ops).1.all Doc.has_numeric_coords) = true :=
  applyOps_coords ops ([], 0) rfl h

/-- A creation payload whose `location` dict has no `coordinates` key. -/
def c2badCreate : PropertyCreate :=
  { title := "No coordinates", price := 1, property_type := "Apartment",
    location := ⟨none, none, none, none, none, none⟩, source := "test" }

/-- C2 counterexample: direct property creation stores a record without
numeric coordinates, so the invariant does not hold over every sequence
of ingestion, creation, and deletion operations. -/
theorem c2_counterexample :
    ((applyOps ([], 0) [StoreOp.create c2badCreate]).1.all Doc.has_numeric_coords)
      = false := by
  decide

/-- Upload rows for the C2 witness: one accepted row, one dropped row. -/
def c2rows : List Row :=
  [[("latitude", .num 60), ("longitude", .num 24), ("price", .num 1000)],
   [("price", .num 5)]]

/-- C2 witness: an upload with a dropped row followed by a deletion
leaves only records with numeric coordinates. -/
theorem c2_witness :
    ((applyOps ([], 0) [StoreOp.uploadCsv c2rows, StoreOp.deleteById "uuid-0"]).1.all
      Doc.has_numeric_coords) = true :=
  c2_csv_invariant [StoreOp.uploadCsv c2rows, StoreOp.deleteById "uuid-0"] (by decide)

/-- C5: when both source files parse, the store after reset-and-reimport
holds exactly the accepted sales rows followed by the accepted rental
rows — its size is the sum of the two accepted-row counts, whatever the
prior store contents. -/
theorem c5_reset_reimport (prior : List Doc) (sales rentals : List Row) (n : ℕ)
    (sp rp : List Doc)
    (hs : parse_csv_to_properties sales false n = .ok sp)
    (hr : parse_csv_to_properties rentals true (n + sp.length) = .ok rp) :
    (import_default_data prior sales rentals n).1.length
      = (sales.filter coordAccepted).length + (rentals.filter coordAccepted).length := by
  simp only [import_default_data, hs, hr, List.length_append]
  rw [parse_accepted_length sales false n sp hs,
      parse_accepted_length rentals true (n + sp.length) rp hr]

/-- Prior store contents for the C5 witness (one directly created doc). -/
def c5prior : List Doc :=
  (create_property []
    { title := "Old", price := 2, property_type := "House",
      location := ⟨none, none, none, none, none, none⟩, source := "old" } 99).1

/-- Sales file for the C5 witness: two accepted rows, one dropped row. -/
def c5sales : List Row :=
  [[("latitude", .num 60), ("longitude", .num 24), ("price", .num 100000)],
   [("price", .num 7)],
   [("latitude", .num 61), ("longitude", .num 25), ("price", .num 200000)]]

/-- Rental file for the C5 witness: one accepted row. -/
def c5rentals : List Row :=
  [[("latitude", .num 60), ("longitude", .num 24), ("price", .num 800)]]

/-- The parsed sales documents of the C5 witness. -/
def c5sp : List Doc := (parse_csv_to_properties c5sales false 0).toOption.getD []

/-- The parsed rental documents of the C5 witness. -/
def c5rp : List Doc :=
  (parse_csv_to_properties c5rentals true (0 + c5sp.length)).toOption.getD []

/-- C5 witness: after reset-and-reimport over a non-empty prior store,
the count equals accepted sales rows (2) plus accepted rental rows (1). -/
theorem c5_witness :
    (import_default_data c5prior c5sales c5rentals 0).1.length
      = (c5sales.filter coordAccepted).length + (c5rentals.filter coordAccepted).length :=
  c5_reset_reimport c5prior c5sales c5rentals 0 c5sp c5rp rfl rfl

/-- C6 (amended): coordinate resolution uses only the exact column names
`latitude` and `longitude` — there is no fallback chain — so acceptance
is decided solely by those two cells, and each accepted row's
coordinates are `[float(longitude), float(latitude)]`. -/
theorem c6_coordinate_columns (rows : List Row) (b : Bool) (n : ℕ) (ds : List Doc)
    (h : parse_csv_to_properties rows b n = .ok ds) :
    ds.length = (rows.filter coordAccepted).length ∧
    ∀ d ∈ ds, ∃ row pid lngF latF, row ∈ rows ∧ parseRow row b pid = .ok (some d) ∧
      pyFloat (rowGet row "longitude" Cell.na) = .ok lngF ∧
      pyFloat (rowGet row "latitude" Cell.na) = .ok latF ∧
      d.location.coordinates = some [lngF.toRat, latF.toRat] := by
  refine ⟨parse_accepted_length rows b n ds h, ?_⟩
  intro d hd
  obtain ⟨row, pid, hrow, hp⟩ := parse_provenance rows b n ds h d hd
  obtain ⟨lngF, latF, hlng, hlat, hcoords⟩ := parseRow_coords row b pid d hp
  exact ⟨row, pid, lngF, latF, hrow, hp, hlng, hlat, hcoords⟩

/-- A Variant-B row: numeric coordinates under `lat`/`lng`. -/
def vbRow : Row :=
  [("lat", .num 60), ("lng", .num 24), ("address", .str "Otakaari 1"),
   ("price", .num 1200)]

/-- C6 counterexample: a Variant-B row with numeric `lat` and `lng` is
not accepted — the normalizer yields no record from it, refuting the
claimed fallback chain over the declared schema variants. -/
theorem c6_counterexample :
    rowGet vbRow "lat" Cell.na = Cell.num 60 ∧
    rowGet vbRow "lng" Cell.na = Cell.num 24 ∧
    parse_csv_to_properties [vbRow] false 0 = .ok [] := by
  decide

/-- Rows for the C6 witness: one `latitude`/`longitude` row accepted, the
Variant-B row dropped. -/
def c6rows : List Row :=
  [[("latitude", .num 60), ("longitude", .num 24), ("price", .num 1000)], vbRow]

/-- The parsed documents of the C6 witness. -/
def c6docs : List Doc := (parse_csv_to_properties c6rows false 0).toOption.getD []

/-- C6 witness: the accepted-row count of a mixed table is decided by
the `latitude`/`longitude` cells alone. -/
theorem c6_witness : c6docs.length = (c6rows.filter coordAccepted).length :=
  (c6_coordinate_columns c6rows false 0 c6docs rfl).1

/-- C7 (amended): for an accepted row the stored price is exactly
`float(row.get('price', 0))` — an absent price column defaults to 0, an
empty cell yields NaN, and no positivity validation is applied — but an
unparseable price string propagates as an error that fails the whole
batch instead of defaulting to 0. -/
theorem c7_price_coercion (row : Row) (b : Bool) (pid : String)
    (hc : coordAccepted row = true) :
    (∀ d, parseRow row b pid = .ok (some d) →
      pyFloat (rowGet row "price" (Cell.num 0)) = .ok d.price) ∧
    (∀ e, pyFloat (rowGet row "price" (Cell.num 0)) = .error e →
      parseRow row b pid = .error e) := by
  constructor
  · intro d h
    exact (parseRow_fields row b pid d h).2.2.2.2.2.2
  · intro e he
    unfold coordAccepted at hc
    have hla : isna (rowGet row "latitude" Cell.na) = false := by
      cases hx : isna (rowGet row "latitude" Cell.na) <;> simp_all
    have hlo : isna (rowGet row "longitude" Cell.na) = false := by
      cases hx : isna (rowGet row "longitude" Cell.na) <;> simp_all
    simp [parseRow, hla, hlo, he]

/-- An accepted row whose table has no price column at all. -/
def c7absentRow : Row := [("latitude", .num 60), ("longitude", .num 24)]

/-- An accepted row with a negative price. -/
def c7negRow : Row :=
  [("latitude", .num 60), ("longitude", .num 24), ("price", .num (-50))]

/-- The document parsed from `c7absentRow`. -/
def c7absentDoc : Doc :=
  ((parseRow c7absentRow false "uuid-0").toOption.getD none).getD default

/-- The document parsed from `c7negRow`. -/
def c7negDoc : Doc :=
  ((parseRow c7negRow false "uuid-0").toOption.getD none).getD default

/-- C7 witness: with the price column absent the stored price is the
float of the default 0, and a negative price is stored unvalidated. -/
theorem c7_witness :
    pyFloat (rowGet c7absentRow "price" (Cell.num 0)) = .ok c7absentDoc.price ∧
    pyFloat (rowGet c7negRow "price" (Cell.num 0)) = .ok c7negDoc.price :=
  ⟨(c7_price_coercion c7absentRow false "uuid-0" (by decide)).1 c7absentDoc rfl,
   (c7_price_coercion c7negRow false "uuid-0" (by decide)).1 c7negDoc rfl⟩

/-- A row with coordinates but an unparseable price string. -/
def c7badRow : Row :=
  [("latitude", .num 60), ("longitude", .num 24), ("price", .str "abc")]

/-- C7 counterexample: an unparseable price does not default to 0 — it
aborts the whole batch with an error. -/
theorem c7_counterexample :
    parse_csv_to_properties [c7badRow] false 0
      = .error "could not convert string to float: abc" := by
  decide

/-- C8 (amended): rows dropped by the coordinate filter are non-fatal
only while at least one accepted record remains — then the upload
succeeds and inserts exactly the accepted records, but no skipped-row
count is reported; when every row is defective (or a numeric coercion
fails) the upload surfaces a caller-visible HTTP 500 and inserts
nothing. -/
theorem c8_batch (store : List Doc) (rows : List Row) (n : ℕ) (ps : List Doc)
    (h : parse_csv_to_properties rows false n = .ok ps) (hne : ps ≠ []) :
    (upload_csv store rows n).1 = store ++ ps ∧
    isHttpError (upload_csv store rows n).2 = false := by
  cases ps with
  | nil => exact absurd rfl hne
  | cons d ds =>
    constructor
    · simp [upload_csv, h]
    · simp [upload_csv, h, isHttpError]

/-- An upload whose table parses but whose rows all lack coordinates. -/
def c8rows : List Row := [[("price", .num 100)], [("address", .str "x")]]

/-- C8 counterexample: with every row defective the upload does not
"complete without a caller-visible failure" — it raises HTTP 500 (and no
skipped-row count is reported anywhere in the success path either). -/
theorem c8_counterexample :
    c8rows.all (fun r => !coordAccepted r) = true ∧
    isHttpError (upload_csv [] c8rows 0).2 = true ∧
    httpStatus (upload_csv [] c8rows 0).2 = some 500 ∧
    (upload_csv [] c8rows 0).1 = [] := by
  decide

/-- A mixed upload: one accepted row, one dropped row. -/
def c8mix : List Row :=
  [[("latitude", .num 60), ("longitude", .num 24), ("price", .num 1000)],
   [("price", .num 5)]]

/-- The accepted documents of the C8 witness upload. -/
def c8ps : List Doc := (parse_csv_to_properties c8mix false 0).toOption.getD []

/-- C8 witness: the mixed upload succeeds, inserting exactly the accepted
records. -/
theorem c8_witness :
    (upload_csv [] c8mix 0).1 = [] ++ c8ps ∧
    isHttpError (upload_csv [] c8mix 0).2 = false :=
  c8_batch [] c8mix 0 c8ps rfl (by decide)

/-- C10: every record produced by CSV normalization, for any rows and
either ingestion mode, has `price_currency = "EUR"`, `location.city =
"Espoo"`, `location.region = "Espoo"`, `location.postal_code = ""` and
`bathrooms = 1`; consequently region aggregation over normalizer-ingested
data groups everything into the single region "Espoo". -/
theorem c10_constant_fields (rows : List Row) (b : Bool) (n : ℕ) (ds : List Doc)
    (h : parse_csv_to_properties rows b n = .ok ds) :
    (∀ d ∈ ds, d.price_currency = "EUR" ∧ d.location.city = some "Espoo" ∧
      d.location.region = some "Espoo" ∧ d.location.postal_code = some "" ∧
      d.bathrooms = some 1) ∧
    (ds ≠ [] → (get_region_stats ds).map RegionStat.region_name = ["Espoo"]) := by
  have hfields : ∀ d ∈ ds, d.price_currency = "EUR" ∧ d.location.city = some "Espoo" ∧
      d.location.region = some "Espoo" ∧ d.location.postal_code = some "" ∧
      d.bathrooms = some 1 := by
    intro d hd
    obtain ⟨row, pid, -, hp⟩ := parse_provenance rows b n ds h d hd
    have hf := parseRow_fields row b pid d hp
    exact ⟨hf.1, hf.2.1, hf.2.2.1, hf.2.2.2.1, hf.2.2.2.2.1⟩
  refine ⟨hfields, ?_⟩
  intro hne
  unfold get_region_stats
  have hkeys : firstDedup [] (ds.map (fun d => d.location.region)) = [some "Espoo"] := by
    apply firstDedup_const
    · simp [hne]
    · intro x hx
      rw [List.mem_map] at hx
      obtain ⟨d, hd, rfl⟩ := hx
      exact (hfields d hd).2.2.1
  rw [hkeys]
  simp [regionStatFor, regionName]

/-- Rows for the C10 witness (rental mode). -/
def c10rows : List Row :=
  [[("latitude", .num 60), ("longitude", .num 24), ("price", .num 900)]]

/-- The parsed documents of the C10 witness. -/
def c10ds : List Doc := (parse_csv_to_properties c10rows true 0).toOption.getD []

/-- C10 witness: region aggregation over the ingested records yields the
single region "Espoo". -/
theorem c10_witness :
    (get_region_stats c10ds).map RegionStat.region_name = ["Espoo"] :=
  (c10_constant_fields c10rows true 0 c10ds rfl).2 (by decide)

/-- C9 witness: each failure mode returns `[]`, including a non-200
response whose payload would otherwise yield a building. -/
theorem c9_witness :
    fetch_buildings_from_osm .transportError = [] ∧
    fetch_buildings_from_osm (.httpResponse 404 (.parsed
      [.node 1 60 24, .node 2 61 25, .node 3 62 26, .node 4 63 27,
       .way 100 [1, 2, 3, 4] (some [("building", "yes")])])) = [] ∧
    fetch_buildings_from_osm (.httpResponse 200 .malformed) = [] ∧
    processElements
      [.node 1 60 24, .node 2 61 25, .node 3 62 26, .node 4 63 27,
       .way 100 [1, 2, 3, 4] (some [("building", "yes")])] ≠ [] :=
  ⟨c9_failures_empty _ (by decide), c9_failures_empty _ (by decide),
   c9_failures_empty _ (by decide), by decide⟩

end Flippi
